import Mathlib

/-!
Shallow embedding of `scripts/demo.py`, a Python demonstration script for a
Rust + Foundry polling project.  The script prints a banner, checks for a
`Cargo.toml` marker file in the current working directory, walks the
directory tree printing an indented listing (at most the first three files
per directory, filtered to non-hidden files with an allow-listed extension),
and prints several fixed lists of commands, features and workflow steps.

The embedding models:
  - the filesystem as a finite directory tree (`Dir`);
  - the observable effects as a trace of events (`Event`): printed lines and
    subprocess spawns;
  - Python control-flow outcomes (`PyResult`): normal return, `sys.exit`,
    or an uncaught exception;
  - the subprocess outcome seen by `run_command` (`SubprocResult`): either a
    completed process (return code, stdout, stderr) or an exception raised
    by the `subprocess.run` call itself.
Every definition mirrors the corresponding line of `demo.py`.
-/

/-- A character repeated `n` times, modelling Python `c * n` string repetition
(e.g. `"=" * 60`). -/
def strRep (c : Char) (n : Nat) : String :=
  String.mk (List.replicate n c)

/-- An observable effect of the script: a line written to standard output by
`print`, or a subprocess spawned by `subprocess.run`. -/
inductive Event where
  | print (line : String)
  | spawn (cmd : String)
deriving DecidableEq, Repr

/-- Lift a list of printed lines to a trace of print events. -/
def prints (ls : List String) : List Event :=
  ls.map Event.print

/-- The standard-output lines of a trace: printed lines in order, spawn
events contribute no output of their own. -/
def outputOf (tr : List Event) : List String :=
  tr.filterMap (fun e => match e with
    | Event.print s => some s
    | Event.spawn _ => none)

/-- How a modelled Python function terminates: a normal `return`,
a `sys.exit(code)`, or an uncaught exception. -/
inductive PyResult (α : Type) where
  | ret (a : α)
  | exit (code : Nat)
  | raised (msg : String)
deriving DecidableEq, Repr

/-- The outcome of the `subprocess.run(cmd, shell=True, capture_output=True,
text=True)` call inside `run_command`: either a completed process with its
return code, stdout and stderr, or an exception raised by the invocation. -/
inductive SubprocResult where
  | ok (returncode : Int) (stdout stderr : String)
  | exn (msg : String)
deriving DecidableEq, Repr

/-- A directory tree: a name, a list of subdirectories and a list of file
names, modelling the filesystem under the current working directory. -/
inductive Dir where
  | mk (name : String) (subdirs : List Dir) (files : List String)
deriving Repr

/-- The name of a directory. -/
def Dir.name : Dir → String
  | .mk n _ _ => n

/-- The subdirectories of a directory. -/
def Dir.subdirs : Dir → List Dir
  | .mk _ s _ => s

/-- The files of a directory. -/
def Dir.files : Dir → List String
  | .mk _ _ f => f

/-- `os.path.exists("Cargo.toml")` relative to the current working directory:
the marker is present when some entry (file or subdirectory) of the root is
named `Cargo.toml`. -/
def cargoPresent (cwd : Dir) : Bool :=
  cwd.files.contains "Cargo.toml" || cwd.subdirs.any (fun d => d.name == "Cargo.toml")

mutual
/-- `os.walk(path)` in top-down order: yields `(path, files)` for the
directory itself, then recurses into each subdirectory in order, joining
paths with the separator `/` as `os.path.join` does. -/
def walk (path : String) (d : Dir) : List (String × List String) :=
  match d with
  | .mk _ subdirs files => (path, files) :: walkList path subdirs

/-- Walk each subdirectory of a common parent path in order. -/
def walkList (parent : String) (ds : List Dir) : List (String × List String) :=
  match ds with
  | [] => []
  | d :: rest => walk (parent ++ "/" ++ d.name) d ++ walkList parent rest
end

/-- Python `s.startswith(pre)`: the characters of `pre` are a prefix of the
characters of `s`. -/
def pyStartsWith (s pre : String) : Bool :=
  pre.toList.isPrefixOf s.toList

/-- Python `s.endswith(suf)`: the characters of `suf` are a suffix of the
characters of `s`. -/
def pyEndsWith (s suf : String) : Bool :=
  suf.toList.isSuffixOf s.toList

/-- Python `p.replace(".", "")`: since the pattern is the single character
`.`, replacing every occurrence by the empty string is exactly filtering the
dots out of the character sequence. -/
def removeDots (p : String) : String :=
  String.mk (p.toList.filter (fun c => c ≠ '.'))

/-- The nesting level of a walked path, as computed by
`root.replace(".", "").count(os.sep)` on line 57 of `demo.py`: every dot is
removed from the path and the remaining separators are counted. -/
def level (p : String) : Nat :=
  ((removeDots p).toList.count '/')

/-- `os.path.basename`: the component after the last separator (the longest
separator-free suffix of the path). -/
def basename (p : String) : String :=
  String.mk ((p.toList.reverse.takeWhile (fun c => c ≠ '/')).reverse)

/-- `file.endswith(('.rs', '.sol', '.toml', '.json'))`: the fixed extension
allow-list of line 62. -/
def allowedExt (f : String) : Bool :=
  pyEndsWith f ".rs" || pyEndsWith f ".sol" || pyEndsWith f ".toml" || pyEndsWith f ".json"

/-- The filter of line 62: not hidden (no leading dot) and an allow-listed
extension. -/
def qualifies (f : String) : Bool :=
  !pyStartsWith f "." && allowedExt f

/-- The files printed for one directory: lines 61-63 slice the file list to
its first three entries (`files[:3]`) and only then filter each entry. -/
def listedFiles (files : List String) : List String :=
  (files.take 3).filter qualifies

/-- The lines printed for one walked directory: the indented basename with a
trailing slash, then the qualifying files among the first three entries at
one deeper indent. -/
def dirLines (path : String) (files : List String) : List String :=
  (strRep ' ' (2 * level path) ++ basename path ++ "/") ::
    (listedFiles files).map (fun f => strRep ' ' (2 * (level path + 1)) ++ f)

/-- All lines of the project-structure tree for a walk rooted at `base`. -/
def treeSectionFrom (base : String) (d : Dir) : List String :=
  (walk base d).flatMap (fun pf => dirLines pf.1 pf.2)

/-- The project-structure listing of lines 56-63, walking `"."`. -/
def treeSection (cwd : Dir) : List String :=
  treeSectionFrom "." cwd

/-- The lines of `print_banner` (lines 21-25). -/
def bannerLines : List String :=
  [strRep '=' 60, "🚀 RUST + FOUNDRY POLLING SYSTEM DEMO", strRep '=' 60, ""]

/-- The error line printed when the marker file is absent (line 48). -/
def errorLine : String :=
  "❌ Please run this script from the project root directory!"

/-- An apostrophe, built from its code point. -/
def apos : String :=
  String.mk [Char.ofNat 39]

/-- The fixed (command, description) pairs of lines 70-78. -/
def commands : List (String × String) :=
  [ ("cargo check", "Validate Rust code compilation"),
    ("cargo build --release", "Build optimized binary"),
    ("cargo run -- --help", "Show CLI help"),
    ("cd Counter && forge build", "Compile smart contracts"),
    ("cd Counter && forge test", "Run smart contract tests"),
    ("cd Counter && anvil", "Start local blockchain (background)"),
    ("cd Counter && forge script script/DecentralizedPolls.s.sol", "Deploy contracts") ]

/-- The build/test section body: for each pair the description, the command,
and a blank line (lines 80-83). -/
def commandLines : List String :=
  commands.flatMap (fun p => ["📋 " ++ p.2, "💻 " ++ p.1, ""])

/-- The fixed feature list of lines 88-97. -/
def features : List String :=
  [ "✅ Colored CLI output with progress indicators",
    "✅ Data export in JSON, CSV, and Table formats",
    "✅ Advanced poll analytics with visual bars",
    "✅ Comprehensive error handling",
    "✅ Time-based poll management",
    "✅ User activity tracking",
    "✅ Multi-format result visualization",
    "✅ Professional CLI experience" ]

/-- Feature lines with the two-space indent of line 100. -/
def featureLines : List String :=
  features.map (fun f => "  " ++ f)

/-- The fixed example-usage command list of lines 106-118. -/
def example_commands : List String :=
  [ "cargo run -- create -q \"What" ++ apos ++ "s your favorite blockchain?\" -o \"Ethereum,Bitcoin,Solana\" -d 7",
    "cargo run -- list",
    "cargo run -- vote -p 0 -o 1",
    "cargo run -- view -p 0",
    "cargo run -- results -p 0",
    "cargo run -- analytics -p 0",
    "cargo run -- export -p 0 -f json -o poll_data.json",
    "cargo run -- export -p 0 -f csv",
    "cargo run -- my-polls",
    "cargo run -- my-votes" ]

/-- Python `{i:2d}` formatting for the 1-based indices used on line 121:
right-aligned in a field of width two. -/
def fmt2 (i : Nat) : String :=
  if i < 10 then " " ++ toString i else toString i

/-- The numbered example-usage lines of lines 120-121. -/
def exampleLines : List String :=
  example_commands.enum.map (fun p => fmt2 (p.1 + 1) ++ ". " ++ p.2)

/-- The fixed workflow-step list of lines 127-134. -/
def workflow : List String :=
  [ "1. Start local blockchain: cd Counter && anvil",
    "2. Deploy contracts: cd Counter && forge script script/DecentralizedPolls.s.sol --rpc-url http://localhost:8545 --private-key 0xac0974bec39a17e36ba4a6b4d238ff944bacb478cbed5efcae784d7bf4f2ff80 --broadcast",
    "3. Set environment variables:",
    "   export CONTRACT_ADDRESS=<deployed_address>",
    "   export RPC_URL=http://localhost:8545",
    "4. Use the enhanced CLI with all new features!" ]

/-- Workflow lines with the two-space indent of line 137. -/
def workflowLines : List String :=
  workflow.map (fun s => "  " ++ s)

/-- The fixed next-phase list of lines 143-152. -/
def next_phases : List String :=
  [ "🌐 Web Frontend (React/Next.js)",
    "🔗 Multi-chain Support (Polygon, Arbitrum)",
    "🛡️  Security Enhancements & Anti-spam",
    "⚖️  Weighted & Stake-based Voting",
    "🔌 REST API for External Integrations",
    "📱 Mobile App Support",
    "🎨 Advanced Data Visualizations",
    "🏆 Reputation & Governance System" ]

/-- Next-phase lines with the two-space indent of line 155. -/
def phaseLines : List String :=
  next_phases.map (fun s => "  " ++ s)

/-- Every line printed after the tree section when the marker file is
present: the static build/test, feature, example-usage, workflow and
next-phase sections and the closing banner (lines 66-161). -/
def staticLines : List String :=
  ["🏗️  BUILD & TEST COMMANDS", strRep '-' 25] ++ commandLines ++
  ["🎯 ENHANCED FEATURES ADDED", strRep '-' 28] ++ featureLines ++ [""] ++
  ["🚀 EXAMPLE USAGE", strRep '-' 15] ++ exampleLines ++ [""] ++
  ["🔧 DEVELOPMENT WORKFLOW", strRep '-' 23] ++ workflowLines ++ [""] ++
  ["📊 NEXT DEVELOPMENT PHASES", strRep '-' 27] ++ phaseLines ++ [""] ++
  [strRep '=' 60,
   "🎉 Your Rust + Foundry polling system is ready for development!",
   "💡 Run any of the commands above to get started.",
   strRep '=' 60]

/-- The header of the project-analysis section (lines 51-55). -/
def analysisHeader : List String :=
  ["🔧 PROJECT ANALYSIS", strRep '-' 20, "📁 Project Structure:"]

/-- `run_command(cmd, description)` of lines 27-41: prints the description,
the command and a dashed rule, spawns the subprocess, then either prints the
non-empty captured streams and a blank line, or — when the invocation raised —
catches the exception and prints a generic error message and a blank line.
It always returns normally. -/
def run_command (cmd description : String) (r : SubprocResult) :
    PyResult Unit × List Event :=
  (PyResult.ret (),
    prints ["📋 " ++ description, "💻 Command: " ++ cmd, strRep '-' 40] ++
    [Event.spawn cmd] ++
    (match r with
     | SubprocResult.ok _ stdout stderr =>
         (if stdout ≠ "" then [Event.print stdout] else []) ++
         (if stderr ≠ "" then [Event.print ("STDERR: " ++ stderr)] else []) ++
         [Event.print ""]
     | SubprocResult.exn msg =>
         prints ["Error running command: " ++ msg, ""]))

/-- `main()` of lines 43-161: print the banner; if the marker file is absent,
print the error line and return; otherwise print the analysis header, the
directory tree, a blank line, and the static sections.  The command-line
arguments are received but never read. -/
def pyMain (_argv : List String) (cwd : Dir) : PyResult Unit × List Event :=
  if !cargoPresent cwd then
    (PyResult.ret (), prints (bannerLines ++ [errorLine]))
  else
    (PyResult.ret (),
      prints (bannerLines ++ analysisHeader ++ treeSection cwd ++ [""] ++ staticLines))

/-- The process exit code determined by how `main()` terminated: a normal
return exits 0 (the `if __name__ == "__main__": main()` harness discards the
return value), `sys.exit(c)` exits with `c`, and an uncaught exception exits
non-zero. -/
def exitCodeOf : PyResult Unit → Nat
  | PyResult.ret _ => 0
  | PyResult.exit c => c
  | PyResult.raised _ => 1

/-- A whole run of the script: exit code and standard-output lines. -/
def scriptRun (argv : List String) (cwd : Dir) : Nat × List String :=
  (exitCodeOf (pyMain argv cwd).1, outputOf (pyMain argv cwd).2)

/-- Helper: the output of a pure print trace is the list of printed lines. -/
theorem outputOf_prints (ls : List String) : outputOf (prints ls) = ls := by
  induction ls with
  | nil => rfl
  | cons a t ih => simpa [outputOf, prints] using ih

/-- Helper: each subdirectory of a directory is visited by the walk of its
parent list, at the joined path, with its own files. -/
theorem walkList_mem_of_mem (parent : String) (ds : List Dir) (sub : Dir)
    (h : sub ∈ ds) :
    (parent ++ "/" ++ sub.name, sub.files) ∈ walkList parent ds := by
  induction ds with
  | nil => cases h
  | cons d rest ih =>
    rw [walkList]
    rcases List.mem_cons.mp h with h1 | h2
    · subst h1
      apply List.mem_append_left
      cases sub with
      | mk n s f => simp [walk, Dir.name, Dir.files]
    · exact List.mem_append_right _ (ih h2)

/-- Helper: every event of a pure print trace is a print event. -/
theorem mem_prints (e : Event) (ls : List String) (h : e ∈ prints ls) :
    ∃ s, e = Event.print s := by
  obtain ⟨s, -, rfl⟩ := List.mem_map.mp h
  exact ⟨s, rfl⟩

/-- Claim C1, counterexample: with the marker file absent, the whole output
is not just the error line — `main` prints the banner before checking for
`Cargo.toml`, so the claim that no banner is printed fails on the code. -/
theorem C1_counterexample :
    (scriptRun [] (Dir.mk "." [] [])).2 ≠ [errorLine] := by decide

/-- Claim C1 (amended): for every invocation where the marker file is absent
from the current working directory, the output is the four banner lines
(printed before the check) followed by exactly one error line, and nothing
else: no directory traversal and no further printing occur after the error
line. -/
theorem C1_missing_marker_output (argv : List String) (cwd : Dir)
    (h : cargoPresent cwd = false) :
    (scriptRun argv cwd).2 = bannerLines ++ [errorLine] := by
  simp [scriptRun, pyMain, h, outputOf_prints]

/-- Witness for C1 (amended): a concrete working directory with no
`Cargo.toml`. -/
theorem C1_missing_marker_output_witness :
    cargoPresent (Dir.mk "." [] []) = false ∧
    (scriptRun [] (Dir.mk "." [] [])).2 = bannerLines ++ [errorLine] :=
  ⟨by decide, C1_missing_marker_output [] (Dir.mk "." [] []) (by decide)⟩

/-- Claim C2: for every directory visited by the tree walker, the
directory-listing section prints exactly the indented header followed by the
listed files, and those listed files number at most 3, none begins with a
dot, and every one has an extension from the fixed allow-list. -/
theorem C2_per_directory_limit (cwd : Dir) (p : String) (fl : List String)
    (h : (p, fl) ∈ walk "." cwd) :
    dirLines p fl = (strRep ' ' (2 * level p) ++ basename p ++ "/") ::
      (listedFiles fl).map (fun f => strRep ' ' (2 * (level p + 1)) ++ f) ∧
    (listedFiles fl).length ≤ 3 ∧
    ∀ f ∈ listedFiles fl, pyStartsWith f "." = false ∧ allowedExt f = true := by
  refine ⟨rfl, le_trans (List.length_filter_le _ _) (List.length_take_le _ _), ?_⟩
  intro f hf
  have hq := (List.mem_filter.mp hf).2
  simpa [qualifies, Bool.and_eq_true, Bool.not_eq_true'] using hq

/-- Witness for C2: the root directory of a concrete tree. -/
theorem C2_per_directory_limit_witness :
    dirLines "." ["Cargo.toml"] = (strRep ' ' (2 * level ".") ++ basename "." ++ "/") ::
      (listedFiles ["Cargo.toml"]).map (fun f => strRep ' ' (2 * (level "." + 1)) ++ f) ∧
    (listedFiles ["Cargo.toml"]).length ≤ 3 ∧
    ∀ f ∈ listedFiles ["Cargo.toml"], pyStartsWith f "." = false ∧ allowedExt f = true :=
  C2_per_directory_limit (Dir.mk "." [] ["Cargo.toml"]) "." ["Cargo.toml"] (by decide)

/-- Claim C3: `run_command` always returns normally, and when the subprocess
invocation raises an exception the exception is caught and converted into
the printed generic error message followed by a blank line, after the
description/command header. -/
theorem C3_run_command_total (cmd description : String) (r : SubprocResult) :
    (run_command cmd description r).1 = PyResult.ret () ∧
    ∀ msg, r = SubprocResult.exn msg →
      outputOf (run_command cmd description r).2 =
        ["📋 " ++ description, "💻 Command: " ++ cmd, strRep '-' 40,
         "Error running command: " ++ msg, ""] := by
  refine ⟨rfl, ?_⟩
  rintro msg rfl
  simp [run_command, outputOf, prints]

/-- Witness for C3: a concrete command whose invocation raises. -/
theorem C3_run_command_total_witness :
    (run_command "ls -la" "List files" (SubprocResult.exn "boom")).1 = PyResult.ret () ∧
    outputOf (run_command "ls -la" "List files" (SubprocResult.exn "boom")).2 =
      ["📋 " ++ "List files", "💻 Command: " ++ "ls -la", strRep '-' 40,
       "Error running command: " ++ "boom", ""] :=
  ⟨(C3_run_command_total "ls -la" "List files" (SubprocResult.exn "boom")).1,
   (C3_run_command_total "ls -la" "List files" (SubprocResult.exn "boom")).2 "boom" rfl⟩

/-- Claim C4: the script's own exit code is 0 on every modelled run — in
particular a missing marker file is a normal return, not a failure — and the
output of `run_command` never depends on the wrapped command's return code. -/
theorem C4_exit_code_zero (argv : List String) (cwd : Dir) (cmd description : String)
    (rc1 rc2 : Int) (out errtext : String) :
    (scriptRun argv cwd).1 = 0 ∧
    run_command cmd description (SubprocResult.ok rc1 out errtext) =
      run_command cmd description (SubprocResult.ok rc2 out errtext) := by
  constructor
  · by_cases h : cargoPresent cwd <;> simp [scriptRun, pyMain, h, exitCodeOf]
  · rfl

/-- Claim C5: from a directory containing the marker file and one
subdirectory `src` with four non-hidden `.rs` files, the tree printer prints
exactly the first three of the four filenames under that subdirectory's
indentation level and omits the fourth. -/
theorem C5_four_rs_files (f1 f2 f3 f4 : String)
    (h1 : pyStartsWith f1 "." = false) (e1 : pyEndsWith f1 ".rs" = true)
    (h2 : pyStartsWith f2 "." = false) (e2 : pyEndsWith f2 ".rs" = true)
    (h3 : pyStartsWith f3 "." = false) (e3 : pyEndsWith f3 ".rs" = true)
    (h4 : pyStartsWith f4 "." = false) (e4 : pyEndsWith f4 ".rs" = true) :
    treeSection (Dir.mk "." [Dir.mk "src" [] [f1, f2, f3, f4]] ["Cargo.toml"]) =
      ["./", "  Cargo.toml", "  src/",
       "    " ++ f1, "    " ++ f2, "    " ++ f3] := by
  have q1 : qualifies f1 = true := by simp [qualifies, allowedExt, h1, e1]
  have q2 : qualifies f2 = true := by simp [qualifies, allowedExt, h2, e2]
  have q3 : qualifies f3 = true := by simp [qualifies, allowedExt, h3, e3]
  have hl : listedFiles [f1, f2, f3, f4] = [f1, f2, f3] := by
    simp [listedFiles, List.filter, q1, q2, q3]
  show dirLines "." ["Cargo.toml"] ++ (dirLines "./src" [f1, f2, f3, f4] ++ []) = _
  rw [dirLines, dirLines, hl]
  rfl

/-- Witness for C5: four concrete `.rs` filenames. -/
theorem C5_four_rs_files_witness :
    treeSection (Dir.mk "." [Dir.mk "src" [] ["a.rs", "b.rs", "c.rs", "d.rs"]] ["Cargo.toml"]) =
      ["./", "  Cargo.toml", "  src/",
       "    " ++ "a.rs", "    " ++ "b.rs", "    " ++ "c.rs"] :=
  C5_four_rs_files "a.rs" "b.rs" "c.rs" "d.rs"
    (by decide) (by decide) (by decide) (by decide)
    (by decide) (by decide) (by decide) (by decide)

/-- Claim C6: runs are deterministic — two invocations over the same
filesystem state produce identical exit code and output whatever the
argument vectors — and when the marker file is present the text after the
tree section is exactly the fixed rendering of the literal command, feature,
example-usage, workflow and next-phase lists. -/
theorem C6_static_sections (argv argv2 : List String) (cwd : Dir)
    (h : cargoPresent cwd = true) :
    scriptRun argv cwd = scriptRun argv2 cwd ∧
    (scriptRun argv cwd).2 =
      bannerLines ++ analysisHeader ++ treeSection cwd ++ [""] ++ staticLines := by
  refine ⟨rfl, ?_⟩
  simp [scriptRun, pyMain, h, outputOf_prints]

/-- Witness for C6: a concrete working directory containing `Cargo.toml`. -/
theorem C6_static_sections_witness :
    scriptRun [] (Dir.mk "." [] ["Cargo.toml"]) =
      scriptRun ["--help"] (Dir.mk "." [] ["Cargo.toml"]) ∧
    (scriptRun [] (Dir.mk "." [] ["Cargo.toml"])).2 =
      bannerLines ++ analysisHeader ++ treeSection (Dir.mk "." [] ["Cargo.toml"]) ++
        [""] ++ staticLines :=
  C6_static_sections [] ["--help"] (Dir.mk "." [] ["Cargo.toml"]) (by decide)

/-- Claim C7: on every execution path of `main` the event trace contains
only print events — no subprocess is ever spawned, so `run_command` and the
example commands are never executed. -/
theorem C7_no_subprocess (argv : List String) (cwd : Dir) :
    ∀ e ∈ (pyMain argv cwd).2, ∃ s, e = Event.print s := by
  intro e he
  by_cases h : cargoPresent cwd <;> simp [pyMain, h] at he <;> exact mem_prints e _ he

/-- Witness for C7: the first banner event of a concrete run. -/
theorem C7_no_subprocess_witness :
    ∃ s, Event.print (strRep '=' 60) = Event.print s :=
  C7_no_subprocess [] (Dir.mk "." [] []) (Event.print (strRep '=' 60)) (by decide)

/-- Claim C8: the files printed for a directory are exactly the qualifying
files among the first three entries of its file list — truncation happens
before filtering — so when the first three entries include a non-qualifying
file, fewer than three files are printed even though more than three
qualifying files exist. -/
theorem C8_truncate_then_filter (fl : List String)
    (h1 : ∃ f ∈ fl.take 3, qualifies f = false)
    (h2 : 3 ≤ (fl.filter qualifies).length) :
    listedFiles fl = (fl.take 3).filter qualifies ∧ (listedFiles fl).length < 3 := by
  refine ⟨rfl, ?_⟩
  have hlt : ((fl.take 3).filter qualifies).length < (fl.take 3).length :=
    List.length_filter_lt_length_iff_exists.mpr
      (by obtain ⟨f, hf, hq⟩ := h1; exact ⟨f, hf, by simp [hq]⟩)
  exact lt_of_lt_of_le hlt (List.length_take_le _ _)

/-- Witness for C8: a hidden file among the first three entries hides a
fourth qualifying file. -/
theorem C8_truncate_then_filter_witness :
    listedFiles [".hidden", "a.rs", "b.rs", "c.rs", "d.rs"] =
      ([".hidden", "a.rs", "b.rs", "c.rs", "d.rs"].take 3).filter qualifies ∧
    (listedFiles [".hidden", "a.rs", "b.rs", "c.rs", "d.rs"]).length < 3 :=
  C8_truncate_then_filter [".hidden", "a.rs", "b.rs", "c.rs", "d.rs"]
    ⟨".hidden", by decide, by decide⟩ (by decide)

/-- Claim C9: every directory reached by the walk has its indented basename
printed with a trailing slash in the tree section, and every subdirectory —
its name unconstrained, hidden names included — is itself visited by the
walk with its own files. -/
theorem C9_every_directory_header (base p : String) (d sub : Dir) (fl : List String)
    (hmem : (p, fl) ∈ walk base d) (hsub : sub ∈ d.subdirs) :
    (strRep ' ' (2 * level p) ++ basename p ++ "/") ∈ treeSectionFrom base d ∧
    (base ++ "/" ++ sub.name, sub.files) ∈ walk base d := by
  constructor
  · exact List.mem_flatMap.mpr ⟨(p, fl), hmem, by rw [dirLines]; exact List.mem_cons_self _ _⟩
  · cases d with
    | mk n subs fls =>
      rw [walk]
      exact List.mem_cons_of_mem _ (walkList_mem_of_mem base subs sub hsub)

/-- Witness for C9: a concrete hidden subdirectory `.git` gets its header
line and is visited by the walk. -/
theorem C9_every_directory_header_witness :
    (strRep ' ' (2 * level "./.git") ++ basename "./.git" ++ "/") ∈
        treeSectionFrom "." (Dir.mk "." [Dir.mk ".git" [] ["x.rs"]] ["Cargo.toml"]) ∧
    ("." ++ "/" ++ (Dir.mk ".git" [] ["x.rs"]).name, (Dir.mk ".git" [] ["x.rs"]).files) ∈
        walk "." (Dir.mk "." [Dir.mk ".git" [] ["x.rs"]] ["Cargo.toml"]) :=
  C9_every_directory_header "." "./.git" (Dir.mk "." [Dir.mk ".git" [] ["x.rs"]] ["Cargo.toml"])
    (Dir.mk ".git" [] ["x.rs"]) ["x.rs"] (by decide) (by simp [Dir.subdirs])

/-- Claim C10: the output is independent of the command-line arguments —
`sys.argv` is never read, so two runs with different argument vectors over
the same filesystem state print the same lines. -/
theorem C10_argv_independent (argv argv2 : List String) (cwd : Dir) :
    (scriptRun argv cwd).2 = (scriptRun argv2 cwd).2 := rfl
